import Mathlib

/-!
Verification of the grove worktree manager: the text parsers
(worktree-list and status-summary), the list surface, the modal surfaces
(action menu, confirmation dialog, creation form) and the session engine
(App.Update and its mutation handlers), shallowly embedded from the Go
sources.  Strings are modelled as lists of characters; the external
repository tool is modelled as an oracle (`GitEnv`) supplying the outcome
of each process invocation.
-/

/-- Go strings, modelled at character granularity. -/
abbrev Str := List Char

/-- Newline character. -/
def nlChar : Char := Char.ofNat 10

/-- Whitespace recognised by Go's `strings.TrimSpace` on ASCII input:
space, tab, newline, vertical tab, form feed, carriage return. -/
def isSpaceChar (c : Char) : Bool :=
  c = ' ' || c = Char.ofNat 9 || c = nlChar || c = Char.ofNat 11 ||
  c = Char.ofNat 12 || c = Char.ofNat 13

/-- Go `strings.TrimSpace`: drop whitespace from both ends. -/
def trimSpace (s : Str) : Str :=
  ((s.dropWhile isSpaceChar).reverse.dropWhile isSpaceChar).reverse

/-- Go `strings.TrimSuffix`: remove `suf` when it is a suffix, else identity. -/
def trimSuffixStr (s suf : Str) : Str :=
  if suf.isSuffixOf s then s.take (s.length - suf.length) else s

/-- Go `strings.LastIndex(s, string(c))` for a one-character needle:
index of the last occurrence of `c`, as an option. -/
def lastIndexOf : Str → Char → Option Nat
  | [], _ => none
  | x :: xs, c =>
    match lastIndexOf xs c with
    | some i => some (i + 1)
    | none => if x = c then some 0 else none

/-- Go `strings.Split(s, "\n")`: pieces between newlines (n separators
give n+1 pieces, empty pieces kept). -/
def splitOnNl : Str → List Str
  | [] => [[]]
  | c :: rest =>
    match splitOnNl rest with
    | [] => [[]]
    | h :: t => if c = nlChar then [] :: h :: t else (c :: h) :: t

/-- Index of the last position `i` with `s[i] = s[i+1] = ' '` (the scan in
`splitWorktreePath`), as an option. -/
def lastMultiSpace : Str → Option Nat
  | [] => none
  | [_] => none
  | a :: b :: rest =>
    match lastMultiSpace (b :: rest) with
    | some i => some (i + 1)
    | none => if a = ' ' && b = ' ' then some 0 else none

/-- `splitWorktreePath` from worktree.go: trim, find the last run of two
consecutive spaces; everything before it is the path, everything from it
on (trimmed) is the hash; with no such run the whole string is the path. -/
def splitWorktreePath (s0 : Str) : List Str :=
  let s := trimSpace s0
  match lastMultiSpace s with
  | none => [s]
  | some i => [trimSpace (s.take i), trimSpace (s.drop i)]

/-- `Worktree` from worktree.go. -/
structure Worktree where
  path : Str := []
  branch : Str := []
  commitHash : Str := []
  isBare : Bool := false
  isDetached : Bool := false
deriving DecidableEq

/-- The literal suffix `(bare)`. -/
def bareSuffix : Str := "(bare)".data

/-- The literal suffix `(detached HEAD)`. -/
def detachedSuffix : Str := "(detached HEAD)".data

/-- `parseWorktreeLine` from worktree.go: bare suffix first, then detached
suffix, then the trailing `[branch]` bracket form; anything else yields the
zero record (empty path). -/
def parseWorktreeLine (line : Str) : Worktree :=
  if bareSuffix.isSuffixOf line then
    { path := trimSpace (trimSuffixStr line bareSuffix), isBare := true }
  else if detachedSuffix.isSuffixOf line then
    let parts := splitWorktreePath (trimSpace (trimSuffixStr line detachedSuffix))
    { path := parts.headD [], commitHash := (parts.drop 1).headD [],
      isDetached := true }
  else
    match lastIndexOf line '[', lastIndexOf line ']' with
    | some bs, some be =>
      if be > bs then
        let parts := splitWorktreePath (trimSpace (line.take bs))
        { path := parts.headD [], commitHash := (parts.drop 1).headD [],
          branch := (line.take be).drop (bs + 1) }
      else {}
    | _, _ => {}

/-- The loop body of `ParseWorktreeList`: trim the line, skip it when
blank, otherwise parse it and keep the record when its path is non-empty. -/
def parseWorktreeListGo : List Str → List Worktree → List Worktree
  | [], acc => acc
  | line :: rest, acc =>
    let t := trimSpace line
    if t = [] then parseWorktreeListGo rest acc
    else
      let wt := parseWorktreeLine t
      if wt.path ≠ [] then parseWorktreeListGo rest (acc ++ [wt])
      else parseWorktreeListGo rest acc

/-- `ParseWorktreeList` from worktree.go. -/
def ParseWorktreeList (output : Str) : List Worktree :=
  parseWorktreeListGo (splitOnNl output) []

/-- Per-line record of the worktree-list parser, as the code computes it:
`none` for blank lines and for lines whose parsed record has an empty path. -/
def parseLineOpt (line : Str) : Option Worktree :=
  let t := trimSpace line
  if t = [] then none
  else
    let wt := parseWorktreeLine t
    if wt.path = [] then none else some wt

/-- Per-line record as the claim words it (shape classification in fixed
order, first match wins): a line ending in `(bare)` yields a bare record
whose path is the line with that suffix stripped and trimmed; otherwise a
line ending in `(detached HEAD)` yields a detached record whose path and
hash come from the path/hash splitter; otherwise a line whose last `[` is
followed by a later `]` yields a record with the bracket contents as
branch; blank and non-matching lines yield nothing.  Written from the
claim's words, to be compared with the code. -/
def claimLine (line : Str) : Option Worktree :=
  let t := trimSpace line
  if t = [] then none
  else if bareSuffix.isSuffixOf t then
    some { path := trimSpace (trimSuffixStr t bareSuffix), isBare := true }
  else if detachedSuffix.isSuffixOf t then
    let parts := splitWorktreePath (trimSpace (trimSuffixStr t detachedSuffix))
    some { path := parts.headD [], commitHash := (parts.drop 1).headD [],
           isDetached := true }
  else
    match lastIndexOf t '[', lastIndexOf t ']' with
    | some bs, some be =>
      if be > bs then
        let parts := splitWorktreePath (trimSpace (t.take bs))
        some { path := parts.headD [], commitHash := (parts.drop 1).headD [],
               branch := (t.take be).drop (bs + 1) }
      else none
    | _, _ => none

/-- The claim's per-line record, amended by the one condition the code
adds: a record is only emitted when its extracted path is non-empty. -/
def claimLineAmended (line : Str) : Option Worktree :=
  (claimLine line).bind fun w => if w.path = [] then none else some w

/-- `WorktreeStatus` from worktree.go. -/
structure WorktreeStatus where
  modifiedCount : Nat := 0
  stagedCount : Nat := 0
  untrackedCount : Nat := 0
deriving DecidableEq

/-- The loop body of `ParseWorktreeStatus`: skip lines shorter than two
characters; `??` lines count as untracked only; otherwise a non-space,
non-`?` index character counts as staged and, independently, a non-space,
non-`?` worktree character counts as modified. -/
def statusStep (st : WorktreeStatus) (line : Str) : WorktreeStatus :=
  match line with
  | c0 :: c1 :: _ =>
    if c0 = '?' && c1 = '?' then
      { st with untrackedCount := st.untrackedCount + 1 }
    else
      let st1 :=
        if c0 ≠ ' ' && c0 ≠ '?' then
          { st with stagedCount := st.stagedCount + 1 }
        else st
      if c1 ≠ ' ' && c1 ≠ '?' then
        { st1 with modifiedCount := st1.modifiedCount + 1 }
      else st1
  | _ => st

/-- `ParseWorktreeStatus` from worktree.go. -/
def ParseWorktreeStatus (output : Str) : WorktreeStatus :=
  (splitOnNl output).foldl statusStep {}

/-- Componentwise sum of two status summaries. -/
def addStatus (a b : WorktreeStatus) : WorktreeStatus :=
  { modifiedCount := a.modifiedCount + b.modifiedCount,
    stagedCount := a.stagedCount + b.stagedCount,
    untrackedCount := a.untrackedCount + b.untrackedCount }

/-- Contribution of one status line, as the claim words it: lines shorter
than two characters contribute nothing; a line whose first two characters
are exactly `??` contributes one untracked file only; any other line
contributes one staged file when its first character is neither space nor
`?` and, independently, one modified file when its second character is
neither space nor `?`. -/
def claimStatusLine (line : Str) : WorktreeStatus :=
  match line with
  | c0 :: c1 :: _ =>
    if c0 = '?' && c1 = '?' then { untrackedCount := 1 }
    else
      { stagedCount := if c0 ≠ ' ' && c0 ≠ '?' then 1 else 0,
        modifiedCount := if c1 ≠ ' ' && c1 ≠ '?' then 1 else 0 }
  | _ => {}

/-- Sum of the claim-side per-line status contributions over a list of
lines (each line counted independently, in order). -/
def claimStatusSum (lines : List Str) : WorktreeStatus :=
  lines.foldr (fun l acc => addStatus (claimStatusLine l) acc) {}

lemma addStatus_zero_right (a : WorktreeStatus) : addStatus a {} = a := by
  simp [addStatus]

lemma addStatus_assoc (a b c : WorktreeStatus) :
    addStatus (addStatus a b) c = addStatus a (addStatus b c) := by
  simp [addStatus, WorktreeStatus.mk.injEq]
  omega

lemma statusStep_eq_add (st : WorktreeStatus) (line : Str) :
    statusStep st line = addStatus st (claimStatusLine line) := by
  match line with
  | [] => simp [statusStep, claimStatusLine, addStatus]
  | [c0] => simp [statusStep, claimStatusLine, addStatus]
  | c0 :: c1 :: rest =>
    simp only [statusStep, claimStatusLine]
    split_ifs <;> simp_all [addStatus, WorktreeStatus.mk.injEq]

lemma foldl_statusStep_eq (lines : List Str) (st : WorktreeStatus) :
    lines.foldl statusStep st = addStatus st (claimStatusSum lines) := by
  induction lines generalizing st with
  | nil => simp [claimStatusSum, addStatus_zero_right]
  | cons l rest ih =>
    simp only [List.foldl_cons, claimStatusSum, List.foldr_cons]
    rw [ih, statusStep_eq_add, addStatus_assoc]
    rfl

set_option maxHeartbeats 2000000 in
lemma parseLineOpt_eq_claimAmended (line : Str) :
    parseLineOpt line = claimLineAmended line := by
  simp only [parseLineOpt, claimLineAmended, claimLine, parseWorktreeLine]
  split
  · rfl
  · split
    · rfl
    · split
      · rfl
      · rcases hbs : lastIndexOf (trimSpace line) '[' with _ | bs <;>
          rcases hbe : lastIndexOf (trimSpace line) ']' with _ | be <;>
          simp only [hbs, hbe]
        · rfl
        · rfl
        · rfl
        · split
          · rfl
          · rfl

lemma parseWorktreeListGo_eq (lines : List Str) (acc : List Worktree) :
    parseWorktreeListGo lines acc = acc ++ lines.filterMap parseLineOpt := by
  induction lines generalizing acc with
  | nil => simp [parseWorktreeListGo]
  | cons line rest ih =>
    by_cases h0 : trimSpace line = []
    · have hl : parseLineOpt line = none := by simp [parseLineOpt, h0]
      simp [parseWorktreeListGo, h0, hl, List.filterMap_cons, ih]
    · by_cases hp : (parseWorktreeLine (trimSpace line)).path = []
      · have hl : parseLineOpt line = none := by simp [parseLineOpt, h0, hp]
        simp [parseWorktreeListGo, h0, hp, hl, List.filterMap_cons, ih]
      · have hl : parseLineOpt line = some (parseWorktreeLine (trimSpace line)) := by
          simp [parseLineOpt, h0, hp]
        simp [parseWorktreeListGo, h0, hp, hl, List.filterMap_cons, ih]

/-- Claim C1, counterexample: on the input `(bare)` the code emits no
record (the extracted path is empty), while the claim as stated — one
record per non-blank line matching one of the three shapes, with the path
being the line with the `(bare)` suffix stripped and trimmed — predicts a
single bare record with an empty path. -/
theorem parse_worktree_list_claim_counterexample :
    ParseWorktreeList ("(bare)".data) = [] ∧
    (splitOnNl ("(bare)".data)).filterMap claimLine =
      [{ path := [], isBare := true }] := by
  constructor
  · rfl
  · rfl

/-- Claim C1 (amended): the worktree-list parser processes lines
independently and in input order, emitting exactly one record per
non-blank line that matches one of the three shapes (classified
first-match-wins: `(bare)` suffix, then `(detached HEAD)` suffix, then a
last `[` followed by a later `]`) and whose extracted path is non-empty;
blank lines, non-matching lines and matching lines with an empty extracted
path produce no record and do not affect later lines, and no field values
leak between records of adjacent lines. -/
theorem parse_worktree_list_per_line (output : Str) :
    ParseWorktreeList output = (splitOnNl output).filterMap claimLineAmended := by
  have h := parseWorktreeListGo_eq (splitOnNl output) []
  simp only [ParseWorktreeList, h, List.nil_append]
  exact List.filterMap_congr (fun line _ => parseLineOpt_eq_claimAmended line)

/-- Claim C2: the status-summary parser skips lines shorter than two
characters and classifies every other line independently by its first two
characters — exactly `??` counts one untracked file only; otherwise a
first character that is neither space nor `?` counts one staged file and,
independently, a second character that is neither space nor `?` counts one
modified file (so one line can add to both) — and the parse of the whole
input is the sum of the per-line contributions; in particular the sample
input yields modified = 2, staged = 3, untracked = 1. -/
theorem parse_worktree_status_counts :
    (∀ output : Str,
      ParseWorktreeStatus output = claimStatusSum (splitOnNl output)) ∧
    ParseWorktreeStatus (" M a.txt\nM  b.txt\n?? c.txt\nMM d.txt\nA  e.txt\n".data) =
      { modifiedCount := 2, stagedCount := 3, untrackedCount := 1 } := by
  constructor
  · intro output
    have h := foldl_statusStep_eq (splitOnNl output) {}
    simp only [ParseWorktreeStatus, h]
    simp [addStatus]
  · rfl

/-- `WorktreeItemData`, the metadata payload attached to a worktree list
item; fields as constructed in `worktreeToListItem` (app sources). -/
structure WorktreeItemData where
  path : Str := []
  branch : Str := []
  commitHash : Str := []
  isBare : Bool := false
  isDetached : Bool := false
  modifiedCount : Nat := 0
  stagedCount : Nat := 0
  untrackedCount : Nat := 0
deriving DecidableEq

/-- `ListItem` from the list component, with the optional metadata payload
the App attaches (a pointer in Go, an option here). -/
structure ListItem where
  id : Str := []
  title : Str := []
  description : Str := []
  metadata : Option WorktreeItemData := none
deriving DecidableEq

/-- `List` component state (field names as in the Go struct); `selected`
and the geometry fields are Go `int`, modelled as `Int`. -/
structure ListState where
  items : List ListItem := []
  selected : Int := 0
  width : Int := 0
  height : Int := 0
  offsetX : Int := 0
  offsetY : Int := 0
deriving DecidableEq

/-- `NewList`. -/
def newList (items : List ListItem) : ListState :=
  { items := items, selected := 0 }

/-- `List.SetItems`: replace the items, clamping the selection to the new
bounds (0 when empty, last index when it overflows). -/
def listSetItems (l : ListState) (items : List ListItem) : ListState :=
  if items.length = 0 then { l with items := items, selected := 0 }
  else if l.selected ≥ (items.length : Int) then
    { l with items := items, selected := (items.length : Int) - 1 }
  else { l with items := items }

/-- `List.SetSelected`: set the selection with bounds checking. -/
def listSetSelected (l : ListState) (index : Int) : ListState :=
  if l.items.length = 0 then { l with selected := 0 }
  else if index < 0 then { l with selected := 0 }
  else if index ≥ (l.items.length : Int) then
    { l with selected := (l.items.length : Int) - 1 }
  else { l with selected := index }

/-- `List.SelectedItem`: the selected item, or none when empty or out of
range. -/
def listSelectedItem (l : ListState) : Option ListItem :=
  if l.items.length = 0 ∨ l.selected < 0 ∨ l.selected ≥ (l.items.length : Int) then
    none
  else l.items.get? l.selected.toNat

/-- `List.MoveDown`: one step down, clamped (no wraparound). -/
def listMoveDown (l : ListState) : ListState :=
  if l.items.length = 0 then l
  else if l.selected < (l.items.length : Int) - 1 then
    { l with selected := l.selected + 1 }
  else l

/-- `List.MoveUp`: one step up, clamped (no wraparound). -/
def listMoveUp (l : ListState) : ListState :=
  if l.items.length = 0 then l
  else if l.selected > 0 then { l with selected := l.selected - 1 }
  else l

/-- `List.PageDown`: move down by the viewport height (at least 1),
clamped to the last index. -/
def listPageDown (l : ListState) : ListState :=
  if l.items.length = 0 then l
  else
    let pageSize := if l.height < 1 then 1 else l.height
    let s := l.selected + pageSize
    if s ≥ (l.items.length : Int) then
      { l with selected := (l.items.length : Int) - 1 }
    else { l with selected := s }

/-- `List.PageUp`: move up by the viewport height (at least 1), clamped
at 0. -/
def listPageUp (l : ListState) : ListState :=
  if l.items.length = 0 then l
  else
    let pageSize := if l.height < 1 then 1 else l.height
    let s := l.selected - pageSize
    if s < 0 then { l with selected := 0 } else { l with selected := s }

/-- `List.SetSize`. -/
def listSetSize (l : ListState) (w h : Int) : ListState :=
  { l with width := w, height := h }

/-- `List.SetOffset`. -/
def listSetOffset (l : ListState) (x y : Int) : ListState :=
  { l with offsetX := x, offsetY := y }

/-- `List.IsInBounds`: whether screen coordinates fall in the list's
rectangle. -/
def listIsInBounds (l : ListState) (x y : Int) : Bool :=
  x ≥ l.offsetX && x < l.offsetX + l.width &&
  y ≥ l.offsetY && y < l.offsetY + l.height

/-- `Tab` from tabs.go. -/
inductive Tab where
  | worktrees
  | branches
  | settings
deriving DecidableEq

/-- `Tab.String`. -/
def tabName : Tab → Str
  | .worktrees => "Worktrees".data
  | .branches => "Branches".data
  | .settings => "Settings".data

/-- `Tabs` state. -/
structure TabsState where
  active : Tab := .worktrees
  width : Int := 0
deriving DecidableEq

/-- `NewTabs`. -/
def newTabs : TabsState := {}

/-- `Tabs.Next`: cyclic successor, as `(active + 1) % 3`. -/
def tabNext : Tab → Tab
  | .worktrees => .branches
  | .branches => .settings
  | .settings => .worktrees

/-- `Tabs.Prev`: cyclic predecessor, as `(active - 1 + 3) % 3`. -/
def tabPrev : Tab → Tab
  | .worktrees => .settings
  | .branches => .worktrees
  | .settings => .branches

/-- `GetTabPositions`: each tab occupies `len(name) + 4` columns, laid out
left to right from column 0; returns (tab, startX, endX) triples. -/
def tabPositions : List (Tab × Int × Int) :=
  let w0 : Int := (tabName .worktrees).length + 4
  let w1 : Int := (tabName .branches).length + 4
  let w2 : Int := (tabName .settings).length + 4
  [(.worktrees, 0, w0), (.branches, w0, w0 + w1), (.settings, w0 + w1, w0 + w1 + w2)]

/-- `Action` from actionmenu.go (named MenuAction here; Mathlib already has an Action). -/
structure MenuAction where
  id : Str := []
  label : Str := []
  description : Str := []
deriving DecidableEq

/-- `defaultWorktreeActions`. -/
def defaultWorktreeActions : List MenuAction :=
  [{ id := "open".data, label := "Open".data,
     description := "Open worktree in new terminal".data },
   { id := "cd".data, label := "Copy Path".data,
     description := "Copy worktree path to clipboard".data },
   { id := "delete".data, label := "Delete".data,
     description := "Remove this worktree".data }]

/-- `ActionMenu` state. -/
structure ActionMenuState where
  visible : Bool := false
  item : Option ListItem := none
  actions : List MenuAction := []
  selected : Int := 0
  width : Int := 0
  height : Int := 0
deriving DecidableEq

/-- `NewActionMenu`. -/
def newActionMenu : ActionMenuState :=
  { actions := defaultWorktreeActions }

/-- `ActionMenu.Show`: bind the menu to an item, reset the selection. -/
def actionMenuShow (m : ActionMenuState) (item : ListItem) : ActionMenuState :=
  { m with visible := true, item := some item, selected := 0 }

/-- `ActionMenu.Hide`: clear visibility, bound item and selection. -/
def actionMenuHide (m : ActionMenuState) : ActionMenuState :=
  { m with visible := false, item := none, selected := 0 }

/-- `ActionMenu.SelectedAction`. -/
def actionMenuSelectedAction (m : ActionMenuState) : Option MenuAction :=
  if m.actions.length = 0 ∨ m.selected < 0 ∨ m.selected ≥ (m.actions.length : Int) then
    none
  else m.actions.get? m.selected.toNat

/-- `ActionMenu.MoveUp`. -/
def actionMenuMoveUp (m : ActionMenuState) : ActionMenuState :=
  if m.actions.length = 0 then m
  else if m.selected > 0 then { m with selected := m.selected - 1 } else m

/-- `ActionMenu.MoveDown`. -/
def actionMenuMoveDown (m : ActionMenuState) : ActionMenuState :=
  if m.actions.length = 0 then m
  else if m.selected < (m.actions.length : Int) - 1 then
    { m with selected := m.selected + 1 }
  else m

/-- `FeedbackType`. -/
inductive FeedbackType where
  | success
  | error
  | info
deriving DecidableEq

/-- `Feedback` state; the duration is in seconds (Go `time.Duration`,
default three seconds). -/
structure FeedbackState where
  message : Str := []
  feedbackType : FeedbackType := .success
  visible : Bool := false
  durationSecs : Nat := 0
deriving DecidableEq

/-- `NewFeedback`. -/
def newFeedback : FeedbackState := { durationSecs := 3 }

/-- Body shared by `ShowSuccess` / `ShowError` / `ShowInfo`: set the
message, the kind and the visible flag (the returned command that
schedules the self-clear is modelled at the call sites). -/
def feedbackShow (f : FeedbackState) (t : FeedbackType) (m : Str) : FeedbackState :=
  { f with message := m, feedbackType := t, visible := true }

/-- `Feedback.Clear`. -/
def feedbackClear (f : FeedbackState) : FeedbackState :=
  { f with visible := false, message := [] }

/-- `CreateFormField`. -/
inductive CreateFormField where
  | branch
  | path
  | createNewBranch
deriving DecidableEq

/-- `CreateFormResult`. -/
structure CreateFormResult where
  branch : Str := []
  path : Str := []
  createBranch : Bool := false
deriving DecidableEq

/-- `CreateForm` state; `cursorPos` is a byte offset in Go, here a
character offset (it never goes negative: it starts at 0 and every
decrement is guarded). -/
structure CreateFormState where
  visible : Bool := false
  focused : CreateFormField := .branch
  branch : Str := []
  path : Str := []
  createBranch : Bool := false
  width : Int := 0
  height : Int := 0
  cursorPos : Nat := 0
  errorMessage : Str := []
deriving DecidableEq

/-- `NewCreateForm`: defaults to creating a new branch. -/
def newCreateForm : CreateFormState := { createBranch := true }

/-- `CreateForm.Show`: make visible and reset every field. -/
def createFormShow (f : CreateFormState) : CreateFormState :=
  { f with visible := true, focused := .branch, branch := [], path := [],
           createBranch := true, cursorPos := 0, errorMessage := [] }

/-- `CreateForm.Hide`: clear only the visible flag and the error message
(field text, cursor, focus and the toggle are left as they are). -/
def createFormHide (f : CreateFormState) : CreateFormState :=
  { f with visible := false, errorMessage := [] }

/-- `CreateForm.focusNext` (cycling forward, repositioning the cursor). -/
def createFormFocusNext (f : CreateFormState) : CreateFormState :=
  match f.focused with
  | .branch => { f with focused := .path, cursorPos := f.path.length }
  | .path => { f with focused := .createNewBranch, cursorPos := 0 }
  | .createNewBranch => { f with focused := .branch, cursorPos := f.branch.length }

/-- `CreateForm.focusPrev` (cycling backward, repositioning the cursor). -/
def createFormFocusPrev (f : CreateFormState) : CreateFormState :=
  match f.focused with
  | .branch => { f with focused := .createNewBranch, cursorPos := 0 }
  | .path => { f with focused := .branch, cursorPos := f.branch.length }
  | .createNewBranch => { f with focused := .path, cursorPos := f.path.length }

/-- `CreateForm.validate`: the branch field must be non-empty in both
modes (with mode-specific error text) and the path must be non-empty;
returns the updated form and whether validation passed. -/
def createFormValidate (f : CreateFormState) : CreateFormState × Bool :=
  if f.branch = [] ∧ f.createBranch then
    ({ f with errorMessage := "Branch name is required".data }, false)
  else if f.branch = [] ∧ ¬f.createBranch then
    ({ f with errorMessage := "Existing branch name is required".data }, false)
  else if f.path = [] then
    ({ f with errorMessage := "Path is required".data }, false)
  else ({ f with errorMessage := [] }, true)

/-- `CreateForm.insertChar`: insert at the cursor of the focused text
field (the cursor is first clamped to the field length). -/
def createFormInsertChar (f : CreateFormState) (c : Char) : CreateFormState :=
  match f.focused with
  | .branch =>
    let pos := if f.cursorPos > f.branch.length then f.branch.length else f.cursorPos
    { f with branch := f.branch.take pos ++ [c] ++ f.branch.drop pos,
             cursorPos := pos + 1 }
  | .path =>
    let pos := if f.cursorPos > f.path.length then f.path.length else f.cursorPos
    { f with path := f.path.take pos ++ [c] ++ f.path.drop pos,
             cursorPos := pos + 1 }
  | .createNewBranch => f

/-- `CreateForm.deleteChar`: delete the character before the cursor of the
focused text field. -/
def createFormDeleteChar (f : CreateFormState) : CreateFormState :=
  match f.focused with
  | .branch =>
    if f.cursorPos > 0 ∧ f.branch.length > 0 then
      { f with branch := f.branch.take (f.cursorPos - 1) ++ f.branch.drop f.cursorPos,
               cursorPos := f.cursorPos - 1 }
    else f
  | .path =>
    if f.cursorPos > 0 ∧ f.path.length > 0 then
      { f with path := f.path.take (f.cursorPos - 1) ++ f.path.drop f.cursorPos,
               cursorPos := f.cursorPos - 1 }
    else f
  | .createNewBranch => f

/-- Payload stored in the confirmation dialog (`interface{}` in Go): the
nil interface, a list-item pointer (itself possibly nil), or a string. -/
inductive ConfirmData where
  | null
  | item (it : Option ListItem)
  | str (s : Str)
deriving DecidableEq

/-- `ConfirmDialog` state. -/
structure ConfirmDialogState where
  visible : Bool := false
  title : Str := []
  message : Str := []
  confirmLabel : Str := []
  cancelLabel : Str := []
  dangerMode : Bool := false
  forceOption : Bool := false
  forceSelected : Bool := false
  selected : Int := 0
  data : ConfirmData := .null
  width : Int := 0
  height : Int := 0
deriving DecidableEq

/-- `NewConfirmDialog`. -/
def newConfirmDialog : ConfirmDialogState :=
  { confirmLabel := "Confirm".data, cancelLabel := "Cancel".data }

/-- `ConfirmDialog.Show`: make visible, set title and message, default the
selection to cancel (index 1), clear the force checkbox and the payload. -/
def confirmShow (d : ConfirmDialogState) (title message : Str) : ConfirmDialogState :=
  { d with visible := true, title := title, message := message,
           selected := 1, forceSelected := false, data := .null }

/-- `ConfirmDialog.ShowWithData`: `Show`, then store the payload. -/
def confirmShowWithData (d : ConfirmDialogState) (title message : Str)
    (data : ConfirmData) : ConfirmDialogState :=
  { confirmShow d title message with data := data }

/-- `ConfirmDialog.ShowDanger`: `ShowWithData`, then danger styling. -/
def confirmShowDanger (d : ConfirmDialogState) (title message : Str)
    (data : ConfirmData) : ConfirmDialogState :=
  { confirmShowWithData d title message data with dangerMode := true }

/-- `ConfirmDialog.SetForceOption`. -/
def confirmSetForceOption (d : ConfirmDialogState) (enabled : Bool) : ConfirmDialogState :=
  { d with forceOption := enabled }

/-- `ConfirmDialog.SetConfirmLabel`. -/
def confirmSetConfirmLabel (d : ConfirmDialogState) (label : Str) : ConfirmDialogState :=
  { d with confirmLabel := label }

/-- `ConfirmDialog.Hide`: reset visibility, danger mode, the force option
and checkbox, the payload and the selection (back to cancel). -/
def confirmHide (d : ConfirmDialogState) : ConfirmDialogState :=
  { d with visible := false, dangerMode := false, forceOption := false,
           forceSelected := false, data := .null, selected := 1 }

/-- `ConfirmDialog.MoveLeft` (toward confirm). -/
def confirmMoveLeft (d : ConfirmDialogState) : ConfirmDialogState :=
  if d.selected > 0 then { d with selected := d.selected - 1 } else d

/-- `ConfirmDialog.MoveRight` (toward cancel). -/
def confirmMoveRight (d : ConfirmDialogState) : ConfirmDialogState :=
  if d.selected < 1 then { d with selected := d.selected + 1 } else d

/-- `ConfirmDialog.ToggleForce`: toggles only when the option is enabled. -/
def confirmToggleForce (d : ConfirmDialogState) : ConfirmDialogState :=
  if d.forceOption then { d with forceSelected := ¬d.forceSelected } else d

/-- `ConfirmDialogResultMsg` payload. -/
structure ConfirmDialogResult where
  confirmed : Bool := false
  force : Bool := false
  data : ConfirmData := .null
deriving DecidableEq

/-- Key messages delivered by the rendering host (`tea.KeyMsg`): the key
types the program inspects, with `runes` carrying the typed characters. -/
inductive KeyMsg where
  | ctrlC
  | tabKey
  | shiftTab
  | enter
  | esc
  | up
  | down
  | pgUp
  | pgDown
  | backspace
  | left
  | right
  | space
  | runes (rs : List Char)
  | otherKey
deriving DecidableEq

/-- Mouse buttons the program inspects. -/
inductive MouseButton where
  | left
  | wheelUp
  | wheelDown
  | otherButton
deriving DecidableEq

/-- Pointer message (`tea.MouseMsg`). -/
structure MouseMsg where
  x : Int := 0
  y : Int := 0
  button : MouseButton := .otherButton
deriving DecidableEq

/-- Messages routed through `App.Update`: host events plus the internal
messages emitted by the surfaces. -/
inductive Msg where
  | key (k : KeyMsg)
  | mouse (m : MouseMsg)
  | windowSize (w h : Int)
  | actionExecuted (action : Option MenuAction) (item : Option ListItem)
  | clearFeedback
  | createFormSubmitted (r : CreateFormResult)
  | createFormCancelled
  | confirmDialogResult (r : ConfirmDialogResult)
deriving DecidableEq

/-- Commands returned to the host (`tea.Cmd`): nothing, quit, a scheduled
feedback self-clear tick, or a message fed back into the update loop. -/
inductive Cmd where
  | none
  | quit
  | tick
  | emit (m : Msg)
deriving DecidableEq

/-- `Feedback.Update`: only `ClearFeedbackMsg` does anything. -/
def feedbackUpdate (f : FeedbackState) (msg : Msg) : FeedbackState :=
  match msg with
  | .clearFeedback => feedbackClear f
  | _ => f

/-- `Tabs.SetActive` (bounds-checked in Go; every `Tab` value is in
bounds here). -/
def tabsSetActive (t : TabsState) (tab : Tab) : TabsState :=
  { t with active := tab }

/-- `Tabs.Update`: tab / shift-tab cycle the active tab; a left click on
row 0 activates the tab whose horizontal span contains the click. -/
def tabsUpdate (t : TabsState) (msg : Msg) : TabsState :=
  match msg with
  | .key .tabKey => { t with active := tabNext t.active }
  | .key .shiftTab => { t with active := tabPrev t.active }
  | .mouse m =>
    if m.button = .left ∧ m.y = 0 then
      match tabPositions.find? (fun p => m.x ≥ p.2.1 ∧ m.x < p.2.2) with
      | some p => tabsSetActive t p.1
      | none => t
    else t
  | _ => t

/-- `List.Update`: arrow/page keys and the vim-style `j`/`k` runes move
the selection; a left click inside the bounds selects the clicked row;
the wheel moves one step. -/
def listUpdate (l : ListState) (msg : Msg) : ListState :=
  match msg with
  | .key .down => listMoveDown l
  | .key .up => listMoveUp l
  | .key .pgDown => listPageDown l
  | .key .pgUp => listPageUp l
  | .key (.runes rs) =>
    match rs.head? with
    | some c =>
      if c = 'j' then listMoveDown l
      else if c = 'k' then listMoveUp l
      else l
    | none => l
  | .mouse m =>
    match m.button with
    | .left =>
      if l.items.length > 0 ∧ listIsInBounds l m.x m.y then
        let clickedIndex := m.y - l.offsetY
        if 0 ≤ clickedIndex ∧ clickedIndex < (l.items.length : Int) then
          listSetSelected l clickedIndex
        else l
      else l
    | .wheelDown => listMoveDown l
    | .wheelUp => listMoveUp l
    | .otherButton => l
  | _ => l

/-- `ActionMenu.Update`: escape hides; enter resolves the selected action
(hiding the menu and emitting `ActionExecutedMsg`); arrows and `j`/`k`
move the selection.  No-op while hidden. -/
def actionMenuUpdate (m : ActionMenuState) (k : KeyMsg) : ActionMenuState × Cmd :=
  if ¬m.visible then (m, .none)
  else
    match k with
    | .esc => (actionMenuHide m, .none)
    | .enter =>
      match actionMenuSelectedAction m with
      | some action =>
        (actionMenuHide m, .emit (.actionExecuted (some action) m.item))
      | none => (m, .none)
    | .up => (actionMenuMoveUp m, .none)
    | .down => (actionMenuMoveDown m, .none)
    | .runes rs =>
      match rs.head? with
      | some c =>
        if c = 'k' then (actionMenuMoveUp m, .none)
        else if c = 'j' then (actionMenuMoveDown m, .none)
        else (m, .none)
      | none => (m, .none)
    | _ => (m, .none)

/-- `ConfirmDialog.Update`: escape cancels; enter resolves to the selected
button; arrows / tab / `h` / `l` move; `y` / `n` answer immediately;
space / `f` toggle the force checkbox.  No-op while hidden. -/
def confirmDialogUpdate (d : ConfirmDialogState) (k : KeyMsg) :
    ConfirmDialogState × Cmd :=
  if ¬d.visible then (d, .none)
  else
    match k with
    | .esc => (confirmHide d, .emit (.confirmDialogResult { confirmed := false }))
    | .enter =>
      (confirmHide d,
       .emit (.confirmDialogResult
         { confirmed := d.selected = 0, force := d.forceSelected, data := d.data }))
    | .left => (confirmMoveLeft d, .none)
    | .shiftTab => (confirmMoveLeft d, .none)
    | .right => (confirmMoveRight d, .none)
    | .tabKey => (confirmMoveRight d, .none)
    | .runes rs =>
      match rs.head? with
      | some c =>
        if c = 'h' then (confirmMoveLeft d, .none)
        else if c = 'l' then (confirmMoveRight d, .none)
        else if c = 'y' then
          (confirmHide d,
           .emit (.confirmDialogResult
             { confirmed := true, force := d.forceSelected, data := d.data }))
        else if c = 'n' then
          (confirmHide d, .emit (.confirmDialogResult { confirmed := false }))
        else if c = ' ' then (confirmToggleForce d, .none)
        else if c = 'f' then (confirmToggleForce d, .none)
        else (d, .none)
      | none => (d, .none)
    | _ => (d, .none)

/-- `CreateForm.submit`: validate; on failure return the form with the
field-level error set (still open); on success hide the form and emit the
collected values. -/
def createFormSubmit (f : CreateFormState) : CreateFormState × Cmd :=
  let v := createFormValidate f
  if ¬v.2 then (v.1, .none)
  else
    let result : CreateFormResult :=
      { branch := v.1.branch, path := v.1.path, createBranch := v.1.createBranch }
    (createFormHide v.1, .emit (.createFormSubmitted result))

/-- `CreateForm.Update`: escape cancels, enter submits, tab / shift-tab
cycle focus, backspace deletes, arrows move the cursor, space toggles the
checkbox (or inserts), runes insert.  No-op while hidden. -/
def createFormUpdate (f : CreateFormState) (k : KeyMsg) : CreateFormState × Cmd :=
  if ¬f.visible then (f, .none)
  else
    match k with
    | .esc => (createFormHide f, .emit .createFormCancelled)
    | .enter => createFormSubmit f
    | .tabKey => (createFormFocusNext f, .none)
    | .shiftTab => (createFormFocusPrev f, .none)
    | .backspace => (createFormDeleteChar f, .none)
    | .left =>
      (if (f.focused = .branch ∨ f.focused = .path) ∧ f.cursorPos > 0 then
        { f with cursorPos := f.cursorPos - 1 }
       else f, .none)
    | .right =>
      if f.focused = .branch then
        if f.cursorPos < f.branch.length then
          ({ f with cursorPos := f.cursorPos + 1 }, Cmd.none)
        else (f, .none)
      else if f.focused = .path then
        if f.cursorPos < f.path.length then
          ({ f with cursorPos := f.cursorPos + 1 }, Cmd.none)
        else (f, .none)
      else (f, .none)
    | .space =>
      if f.focused = .createNewBranch then
        ({ f with createBranch := ¬f.createBranch }, Cmd.none)
      else (createFormInsertChar f ' ', .none)
    | .runes rs => (rs.foldl createFormInsertChar f, .none)
    | _ => (f, .none)

/-- Errors from the git package, as the engine distinguishes them:
`NotGitRepoError` versus every other error, both rendering to a message
string. -/
inductive GitErr where
  | notGitRepo (path : Str)
  | failed (msg : Str)
deriving DecidableEq

/-- `IsNotGitRepoError` on an optional error (nil maps to false). -/
def isNotGitRepoErr : Option GitErr → Bool
  | some (.notGitRepo _) => true
  | _ => false

/-- Rendered `Error()` text of a `GitErr`. -/
def gitErrMsg : GitErr → Str
  | .notGitRepo p => "not a git repository: ".data ++ p
  | .failed m => m

/-- `AddWorktreeOptions` from worktree.go. -/
structure AddWorktreeOptions where
  path : Str := []
  branch : Str := []
  createBranch : Bool := false
  baseBranch : Str := []
deriving DecidableEq

/-- `OpenWorktreeResult` from the terminal opener. -/
structure OpenWorktreeResult where
  success : Bool := false
  method : Str := []
  message : Str := []
deriving DecidableEq

/-- Outcomes of the external repository tool and of the terminal opener
for one event-handling step: the oracle the engine's handlers consult in
place of spawning processes.  `removeResult`/`addResult` return the
rendered error message on failure and nothing on success;
`pruneResult`/`listResult` return the typed failure or the successful
output. -/
structure GitEnv where
  listResult : Except GitErr (List Worktree)
  statusOf : Str → Except GitErr WorktreeStatus
  removeResult : Str → Bool → Option Str
  pruneResult : Except Str Str
  addResult : AddWorktreeOptions → Option Str
  openResult : Str → Except Str OpenWorktreeResult

/-- Replace every occurrence of the character `c` by the string `r`
(Go `strings.ReplaceAll` with a one-character pattern). -/
def replaceAllChar (s : Str) (c : Char) (r : Str) : Str :=
  (s.map fun x => if x = c then r else [x]).flatten

/-- Double-quote character. -/
def dqChar : Char := Char.ofNat 34

/-- Single-quote character. -/
def sqChar : Char := Char.ofNat 39

/-- Backslash character. -/
def bsChar : Char := Char.ofNat 92

/-- Backtick character. -/
def btChar : Char := Char.ofNat 96

/-- `shellQuote` from the terminal opener: strings containing a single
quote are escaped and double-quoted, everything else is single-quoted. -/
def shellQuote (s : Str) : Str :=
  if s.contains sqChar then
    let e1 := replaceAllChar s dqChar [bsChar, dqChar]
    let e2 := replaceAllChar e1 '$' [bsChar, '$']
    let e3 := replaceAllChar e2 btChar [bsChar, btChar]
    let e4 := replaceAllChar e3 bsChar [bsChar, bsChar]
    [dqChar] ++ e4 ++ [dqChar]
  else [sqChar] ++ s ++ [sqChar]

/-- `GetCDCommand` from the terminal opener. -/
def getCDCommand (path : Str) : Str :=
  "cd ".data ++ shellQuote path

/-- Go `filepath.Base` (slash-separated paths): empty gives `.`, trailing
slashes are dropped, all-slashes gives `/`, else the last component. -/
def filepathBase (p : Str) : Str :=
  if p = [] then ".".data
  else
    let q := (p.reverse.dropWhile (· = '/')).reverse
    if q = [] then "/".data
    else (q.reverse.takeWhile (· ≠ '/')).reverse

/-- `Worktree.Name`: the last path component. -/
def worktreeName (w : Worktree) : Str :=
  filepathBase w.path

/-- `Details` component state. -/
structure DetailsState where
  item : Option ListItem := none
  width : Int := 0
  height : Int := 0
deriving DecidableEq

/-- `Details.SetItem`. -/
def detailsSetItem (d : DetailsState) (item : Option ListItem) : DetailsState :=
  { d with item := item }

/-- `Details.SetSize`. -/
def detailsSetSize (d : DetailsState) (w h : Int) : DetailsState :=
  { d with width := w, height := h }

/-- `App` state from the app sources (render-only components omitted from
the Go struct are kept: every field the handlers touch is present). -/
structure AppState where
  quitting : Bool := false
  tabs : TabsState := newTabs
  list : ListState := newList []
  details : DetailsState := {}
  actionMenu : ActionMenuState := newActionMenu
  feedback : FeedbackState := newFeedback
  createForm : CreateFormState := newCreateForm
  confirmDialog : ConfirmDialogState := newConfirmDialog
  width : Int := 0
  height : Int := 0
  worktrees : List Worktree := []
  gitError : Option GitErr := none
  repoPath : Str := []
  targetPath : Str := []
deriving DecidableEq

/-- `worktreeToListItem`: build the display item for one worktree,
querying the per-path status oracle for non-bare worktrees (count fields
stay zero when the status call fails). -/
def worktreeToListItem (statusOf : Str → Except GitErr WorktreeStatus)
    (wt : Worktree) : ListItem :=
  let counts : WorktreeStatus :=
    if ¬wt.isBare then
      match statusOf wt.path with
      | .ok st => st
      | .error _ => {}
    else {}
  let metadata : WorktreeItemData :=
    { path := wt.path, branch := wt.branch, commitHash := wt.commitHash,
      isBare := wt.isBare, isDetached := wt.isDetached,
      modifiedCount := counts.modifiedCount, stagedCount := counts.stagedCount,
      untrackedCount := counts.untrackedCount }
  let description : Str :=
    if wt.isBare then "Bare repository".data
    else if wt.isDetached then "Detached HEAD".data
    else if wt.branch ≠ [] then wt.branch
    else []
  { id := wt.path, title := worktreeName wt, description := description,
    metadata := some metadata }

/-- `loadWorktrees`: on a list failure record the error and clear the
collection and the list items; on success replace the collection, clear
the error, rebuild the items and (when non-empty) point the details pane
at the selected item. -/
def loadWorktrees (env : GitEnv) (a : AppState) : AppState :=
  match env.listResult with
  | .error e =>
    { a with gitError := some e, worktrees := [],
             list := listSetItems a.list [] }
  | .ok wts =>
    let items := wts.map (worktreeToListItem env.statusOf)
    let l := listSetItems a.list items
    let a1 := { a with worktrees := wts, gitError := none, list := l }
    if items.length > 0 then
      { a1 with details := detailsSetItem a1.details (listSelectedItem l) }
    else a1

/-- Id of an optional list item (`nil` pointer dereference in Go is
modelled as the empty string; the engine only builds these from non-nil
items). -/
def optItemId (it : Option ListItem) : Str :=
  (it.map (·.id)).getD []

/-- Title of an optional list item (same nil convention). -/
def optItemTitle (it : Option ListItem) : Str :=
  (it.map (·.title)).getD []

/-- `handleActionExecuted`: nil action is ignored; `open` consults the
terminal opener and shows success/info/error feedback; `cd` shows the cd
command as info; `delete` opens the danger-styled confirmation dialog with
a force option, carrying the item; anything else shows an error. -/
def handleActionExecuted (env : GitEnv) (a : AppState)
    (action : Option MenuAction) (item : Option ListItem) : AppState × Cmd :=
  match action with
  | none => (a, .none)
  | some act =>
    if act.id = "open".data then
      match env.openResult (optItemId item) with
      | .error e =>
        ({ a with feedback :=
            feedbackShow a.feedback .error ("Failed to open worktree: ".data ++ e) },
         .tick)
      | .ok r =>
        if r.success then
          ({ a with feedback := feedbackShow a.feedback .success r.message }, .tick)
        else
          ({ a with feedback := feedbackShow a.feedback .info r.message }, .tick)
    else if act.id = "cd".data then
      let fb := feedbackShow a.feedback .info
        ("Copy: ".data ++ getCDCommand (optItemId item))
      ({ a with feedback := fb }, .tick)
    else if act.id = "delete".data then
      let d := confirmSetForceOption (confirmSetConfirmLabel a.confirmDialog "Delete".data) true
      let d1 := confirmShowDanger d "Delete Worktree?".data
        ("This will remove the worktree ".data ++ [sqChar] ++ optItemTitle item ++
         [sqChar] ++ ".\nPath: ".data ++ optItemId item)
        (.item item)
      ({ a with confirmDialog := d1 }, .none)
    else
      ({ a with feedback :=
          feedbackShow a.feedback .error ("Unknown action: ".data ++ act.id) },
       .tick)

/-- `handleCreateFormSubmitted`: attempt the worktree creation; on failure
show error feedback and leave the state untouched; on success record the
target path and quit (the shell wrapper hands control to the new path). -/
def handleCreateFormSubmitted (env : GitEnv) (a : AppState)
    (r : CreateFormResult) : AppState × Cmd :=
  let opts : AddWorktreeOptions :=
    { path := r.path, branch := r.branch, createBranch := r.createBranch }
  match env.addResult opts with
  | some e =>
    ({ a with feedback :=
        feedbackShow a.feedback .error ("Failed to create worktree: ".data ++ e) },
     .tick)
  | none =>
    ({ a with targetPath := r.path, quitting := true }, .quit)

/-- `handleConfirmDialogResult`: a cancelled dialog does nothing; a
confirmed item payload attempts the removal (error feedback on failure;
refresh plus success feedback on success); a confirmed `prune` payload
attempts the prune (error feedback on failure; refresh plus success
feedback on success); any other payload does nothing. -/
def handleConfirmDialogResult (env : GitEnv) (a : AppState)
    (r : ConfirmDialogResult) : AppState × Cmd :=
  if ¬r.confirmed then (a, .none)
  else
    match r.data with
    | .item it =>
      match env.removeResult (optItemId it) r.force with
      | some e =>
        ({ a with feedback :=
            feedbackShow a.feedback .error ("Failed to remove worktree: ".data ++ e) },
         .tick)
      | none =>
        let a1 := loadWorktrees env a
        let fb := feedbackShow a1.feedback .success
          ("Removed worktree: ".data ++ optItemTitle it)
        ({ a1 with feedback := fb }, .tick)
    | .str s =>
      if s = "prune".data then
        match env.pruneResult with
        | .error e =>
          ({ a with feedback :=
              feedbackShow a.feedback .error ("Failed to prune worktrees: ".data ++ e) },
           .tick)
        | .ok output =>
          let a1 := loadWorktrees env a
          let message :=
            if output ≠ [] then "Pruned: ".data ++ output
            else "Pruned stale worktrees".data
          ({ a1 with feedback := feedbackShow a1.feedback .success message }, .tick)
      else (a, .none)
    | .null => (a, .none)

/-- `updatePaneSizes`: reserve four rows of chrome, split the width 40/60
between list and details (one separator column), clamp both shares at
zero; the list is anchored at row 3. -/
def updatePaneSizes (a : AppState) : AppState :=
  let availableHeight := if a.height - 4 < 0 then 0 else a.height - 4
  let listWidth0 := Int.tdiv (a.width * 40) 100
  let detailsWidth0 := a.width - listWidth0 - 1
  let listWidth := if listWidth0 < 0 then 0 else listWidth0
  let detailsWidth := if detailsWidth0 < 0 then 0 else detailsWidth0
  { a with
    list := listSetOffset (listSetSize a.list listWidth availableHeight) 0 3,
    details := detailsSetSize a.details detailsWidth availableHeight }

/-- The base key handler of `App.Update` (no modal claimed the key):
Ctrl+C and `q` quit; tab keys switch tabs; enter opens the action menu on
worktree-bearing tabs with a selected item; escape hides the action menu;
navigation keys and `j`/`k` drive the list and refresh the details pane;
`n` opens the creation form and `p` the prune confirmation, both only on
the worktrees tab and only without a not-a-repository error. -/
def appBaseKey (a : AppState) (k : KeyMsg) : AppState × Cmd :=
  match k with
  | .ctrlC => ({ a with quitting := true }, .quit)
  | .tabKey => ({ a with tabs := tabsUpdate a.tabs (.key .tabKey) }, .none)
  | .shiftTab => ({ a with tabs := tabsUpdate a.tabs (.key .shiftTab) }, .none)
  | .enter =>
    if a.tabs.active = .worktrees ∨ a.tabs.active = .branches then
      match listSelectedItem a.list with
      | some item => ({ a with actionMenu := actionMenuShow a.actionMenu item }, .none)
      | none => (a, .none)
    else (a, .none)
  | .esc =>
    if a.actionMenu.visible then
      ({ a with actionMenu := actionMenuHide a.actionMenu }, .none)
    else (a, .none)
  | .up | .down | .pgUp | .pgDown =>
    if a.tabs.active = .worktrees ∨ a.tabs.active = .branches then
      let l := listUpdate a.list (.key k)
      ({ a with list := l, details := detailsSetItem a.details (listSelectedItem l) },
       .none)
    else (a, .none)
  | .runes rs =>
    match rs.head? with
    | some c =>
      if c = 'q' then ({ a with quitting := true }, .quit)
      else if c = 'n' then
        if a.tabs.active = .worktrees ∧ ¬isNotGitRepoErr a.gitError then
          ({ a with createForm := createFormShow a.createForm }, .none)
        else (a, .none)
      else if c = 'p' then
        if a.tabs.active = .worktrees ∧ ¬isNotGitRepoErr a.gitError then
          let d := confirmSetForceOption
            (confirmSetConfirmLabel a.confirmDialog "Prune".data) false
          let d1 := confirmShowWithData d "Prune Stale Worktrees?".data
            "This will remove worktree entries whose directories no longer exist.".data
            (.str "prune".data)
          ({ a with confirmDialog := d1 }, .none)
        else (a, .none)
      else if c = 'j' ∨ c = 'k' then
        if a.tabs.active = .worktrees ∨ a.tabs.active = .branches then
          let l := listUpdate a.list (.key (.runes rs))
          ({ a with list := l,
                    details := detailsSetItem a.details (listSelectedItem l) },
           .none)
        else (a, .none)
      else (a, .none)
    | none => (a, .none)
  | _ => (a, .none)

/-- `App.Update`: internal messages are dispatched first; then, for key
events only, the visible modal with the highest precedence (confirmation
dialog, then creation form, then action menu) claims the key — except
Ctrl+C, which always quits; remaining events reach the base handler,
the resize handler or the pointer handler. -/
def appUpdate (env : GitEnv) (a : AppState) (msg : Msg) : AppState × Cmd :=
  match msg with
  | .actionExecuted action item => handleActionExecuted env a action item
  | .clearFeedback => ({ a with feedback := feedbackUpdate a.feedback .clearFeedback }, .none)
  | .createFormSubmitted r => handleCreateFormSubmitted env a r
  | .createFormCancelled => (a, .none)
  | .confirmDialogResult r => handleConfirmDialogResult env a r
  | .key k =>
    if a.confirmDialog.visible then
      if k = .ctrlC then ({ a with quitting := true }, .quit)
      else
        let u := confirmDialogUpdate a.confirmDialog k
        ({ a with confirmDialog := u.1 }, u.2)
    else if a.createForm.visible then
      if k = .ctrlC then ({ a with quitting := true }, .quit)
      else
        let u := createFormUpdate a.createForm k
        ({ a with createForm := u.1 }, u.2)
    else if a.actionMenu.visible then
      if k = .ctrlC then ({ a with quitting := true }, .quit)
      else
        let u := actionMenuUpdate a.actionMenu k
        ({ a with actionMenu := u.1 }, u.2)
    else appBaseKey a k
  | .windowSize w h =>
    let a1 := { a with width := w, height := h,
                       tabs := { a.tabs with width := w } }
    (updatePaneSizes a1, .none)
  | .mouse m =>
    if m.y = 0 then ({ a with tabs := tabsUpdate a.tabs (.mouse m) }, .none)
    else if a.tabs.active = .worktrees ∨ a.tabs.active = .branches then
      if listIsInBounds a.list m.x m.y ∨ m.button = .wheelDown ∨ m.button = .wheelUp then
        let l := listUpdate a.list (.mouse m)
        ({ a with list := l, details := detailsSetItem a.details (listSelectedItem l) },
         .none)
      else (a, .none)
    else (a, .none)

/-- Claim C5: from every engine state — no modal open, or any of the
confirmation dialog, creation form, or action menu visible — the
interrupt key (Ctrl+C) sets the quitting flag and returns the quit
command; no modal surface swallows it. -/
theorem interrupt_key_always_quits (env : GitEnv) (a : AppState) :
    appUpdate env a (.key .ctrlC) = ({ a with quitting := true }, .quit) := by
  simp only [appUpdate]
  split_ifs <;> rfl

/-- Claim C6, counterexample: typing `a` into the branch field of the
creation form and hiding the form leaves the field text (and the cursor
position) from the previous Show observable — Hide does not fully reset
the creation form substate. -/
theorem modal_hide_counterexample :
    (createFormHide (createFormInsertChar (createFormShow newCreateForm) 'a')).visible
      = false ∧
    (createFormHide (createFormInsertChar (createFormShow newCreateForm) 'a')).branch
      = ['a'] ∧
    (createFormHide (createFormInsertChar (createFormShow newCreateForm) 'a')).cursorPos
      = 1 := by
  exact ⟨rfl, rfl, rfl⟩

/-- Claim C6 (amended): hiding the action menu and the confirmation dialog
fully resets their Show-created substate (subject item, selection index,
force flag and payload); hiding the creation form clears only the visible
flag and the error message — its field text, cursor, focus and toggle
persist — and it is the next Show that resets them all. -/
theorem modal_hide_reset :
    (∀ m : ActionMenuState, actionMenuHide m =
      { m with visible := false, item := none, selected := 0 }) ∧
    (∀ d : ConfirmDialogState, confirmHide d =
      { d with visible := false, dangerMode := false, forceOption := false,
               forceSelected := false, data := .null, selected := 1 }) ∧
    (∀ f : CreateFormState, createFormHide f =
      { f with visible := false, errorMessage := [] }) ∧
    (∀ f : CreateFormState,
      (createFormShow f).branch = [] ∧ (createFormShow f).path = [] ∧
      (createFormShow f).cursorPos = 0 ∧ (createFormShow f).createBranch = true ∧
      (createFormShow f).focused = .branch ∧ (createFormShow f).errorMessage = []) := by
  exact ⟨fun m => rfl, fun d => rfl, fun f => rfl,
         fun f => ⟨rfl, rfl, rfl, rfl, rfl, rfl⟩⟩

/-- Claim C7: every way of showing the confirmation dialog — plain, with
data, or danger-styled — initialises the selected button to the cancel
side (index 1) and the force checkbox to unselected. -/
theorem confirm_show_defaults_to_cancel (d : ConfirmDialogState)
    (t m : Str) (data : ConfirmData) :
    ((confirmShow d t m).selected = 1 ∧
      (confirmShow d t m).forceSelected = false) ∧
    ((confirmShowWithData d t m data).selected = 1 ∧
      (confirmShowWithData d t m data).forceSelected = false) ∧
    ((confirmShowDanger d t m data).selected = 1 ∧
      (confirmShowDanger d t m data).forceSelected = false) := by
  exact ⟨⟨rfl, rfl⟩, ⟨rfl, rfl⟩, ⟨rfl, rfl⟩⟩

/-- Claim C8: submitting the creation form with an empty branch while
create-new-branch is enabled is rejected with the branch-required
field error, keeps the form visible and clears no input; submitting with a
non-empty branch and a non-empty path, in either mode, closes the form and
emits exactly the three entered values unmodified. -/
theorem creation_form_submit (f : CreateFormState) :
    (f.createBranch = true → f.branch = [] →
      (createFormSubmit f).1 =
        { f with errorMessage := "Branch name is required".data } ∧
      (createFormSubmit f).2 = .none ∧
      (createFormSubmit f).1.visible = f.visible ∧
      (createFormSubmit f).1.branch = f.branch ∧
      (createFormSubmit f).1.path = f.path ∧
      (createFormSubmit f).1.cursorPos = f.cursorPos) ∧
    (f.branch ≠ [] → f.path ≠ [] →
      (createFormSubmit f).1.visible = false ∧
      (createFormSubmit f).2 = .emit (.createFormSubmitted
        { branch := f.branch, path := f.path, createBranch := f.createBranch })) := by
  constructor
  · intro hc hb
    simp [createFormSubmit, createFormValidate, hb, hc]
  · intro hb hp
    simp [createFormSubmit, createFormValidate, createFormHide, hb, hp]

/-- An open creation form with an empty branch and create-branch enabled. -/
def sampleFormEmptyBranch : CreateFormState :=
  { newCreateForm with visible := true }

/-- An open creation form with branch `b` and path `p`. -/
def sampleFormFilled : CreateFormState :=
  { visible := true, branch := "b".data, path := "p".data, createBranch := true }

/-- Witness for C8 at concrete forms: the open form with an empty branch
and create-branch enabled is rejected with the error set, and the filled
form submits and closes. -/
theorem creation_form_submit_witness :
    (createFormSubmit sampleFormEmptyBranch).1 =
      { sampleFormEmptyBranch with errorMessage := "Branch name is required".data } ∧
    (createFormSubmit sampleFormFilled).1.visible = false := by
  constructor
  · exact ((creation_form_submit sampleFormEmptyBranch).1 rfl rfl).1
  · exact ((creation_form_submit sampleFormFilled).2 (by decide) (by decide)).1

/-- Claim C9: on a populated list, PageDown moves the selection down by
the viewport height — or by 1 when the height is less than 1 (zero or
unset) — clamped to the last index, so from any in-range index below the
last it strictly increases the selection; PageUp symmetrically moves up by
the same amount, clamped at 0, strictly decreasing from any index
above 0. -/
theorem list_paging (l : ListState) (h : l.items ≠ []) :
    ((listPageDown l).selected =
      if l.selected + (if l.height < 1 then 1 else l.height) ≥ (l.items.length : Int)
      then (l.items.length : Int) - 1
      else l.selected + (if l.height < 1 then 1 else l.height)) ∧
    ((listPageUp l).selected =
      if l.selected - (if l.height < 1 then 1 else l.height) < 0 then 0
      else l.selected - (if l.height < 1 then 1 else l.height)) ∧
    (0 ≤ l.selected → l.selected < (l.items.length : Int) - 1 →
      l.selected < (listPageDown l).selected ∧
      (listPageDown l).selected ≤ (l.items.length : Int) - 1) ∧
    (0 < l.selected →
      (listPageUp l).selected < l.selected ∧ 0 ≤ (listPageUp l).selected) := by
  have hlen : l.items.length ≠ 0 := by simpa [List.length_eq_zero] using h
  refine ⟨?_, ?_, ?_, ?_⟩
  · simp only [listPageDown]
    split_ifs <;> (try dsimp only) <;> omega
  · simp only [listPageUp]
    split_ifs <;> (try dsimp only) <;> omega
  · intro h0 h1
    simp only [listPageDown]
    split_ifs <;> (try dsimp only) <;> omega
  · intro h0
    simp only [listPageUp]
    split_ifs <;> (try dsimp only) <;> omega

/-- A populated three-item list with zero viewport height. -/
def samplePagingList : ListState :=
  { items := [{}, {}, {}], selected := 0, height := 0 }

/-- Witness for C9: on the three-item list with zero height, the list
is populated and PageDown strictly increases the selection from 0. -/
theorem list_paging_witness :
    samplePagingList.items ≠ [] ∧
    samplePagingList.selected < (listPageDown samplePagingList).selected := by
  refine ⟨by decide, ?_⟩
  exact ((list_paging samplePagingList (by decide)).2.2.1 (by decide) (by decide)).1

/-- The selection bound the List surface maintains: non-negative, zero on
an empty sequence, at most the last index otherwise. -/
def selectionInv (l : ListState) : Prop :=
  0 ≤ l.selected ∧
  (l.items.length = 0 → l.selected = 0) ∧
  (l.items.length ≠ 0 → l.selected ≤ (l.items.length : Int) - 1)

lemma selInv_newList (items : List ListItem) : selectionInv (newList items) := by
  refine ⟨le_refl 0, fun _ => rfl, fun hne => ?_⟩
  have : items.length ≠ 0 := by simpa [newList] using hne
  simp only [newList]
  omega

lemma selInv_setItems (l : ListState) (items : List ListItem)
    (h : selectionInv l) : selectionInv (listSetItems l items) := by
  obtain ⟨h0, he, hn⟩ := h
  simp only [listSetItems, selectionInv]
  split_ifs <;> (try dsimp only) <;> omega

lemma selInv_setSelected (l : ListState) (i : Int) :
    selectionInv (listSetSelected l i) := by
  simp only [listSetSelected, selectionInv]
  split_ifs <;> (try dsimp only) <;> omega

lemma selInv_moveDown (l : ListState) (h : selectionInv l) :
    selectionInv (listMoveDown l) := by
  obtain ⟨h0, he, hn⟩ := h
  simp only [listMoveDown, selectionInv]
  split_ifs <;> (try dsimp only) <;> omega

lemma selInv_moveUp (l : ListState) (h : selectionInv l) :
    selectionInv (listMoveUp l) := by
  obtain ⟨h0, he, hn⟩ := h
  simp only [listMoveUp, selectionInv]
  split_ifs <;> (try dsimp only) <;> omega

lemma selInv_pageDown (l : ListState) (h : selectionInv l) :
    selectionInv (listPageDown l) := by
  obtain ⟨h0, he, hn⟩ := h
  simp only [listPageDown, selectionInv]
  split_ifs <;> (try dsimp only) <;> omega

lemma selInv_pageUp (l : ListState) (h : selectionInv l) :
    selectionInv (listPageUp l) := by
  obtain ⟨h0, he, hn⟩ := h
  simp only [listPageUp, selectionInv]
  split_ifs <;> (try dsimp only) <;> omega

lemma selInv_listUpdate (l : ListState) (msg : Msg) (h : selectionInv l) :
    selectionInv (listUpdate l msg) := by
  cases msg with
  | key k =>
    cases k with
    | down => exact selInv_moveDown l h
    | up => exact selInv_moveUp l h
    | pgDown => exact selInv_pageDown l h
    | pgUp => exact selInv_pageUp l h
    | runes rs =>
      simp only [listUpdate]
      cases rs.head? with
      | none => exact h
      | some c =>
        by_cases hj : c = 'j'
        · simpa [hj] using selInv_moveDown l h
        · by_cases hk : c = 'k'
          · simpa [hj, hk] using selInv_moveUp l h
          · simpa [hj, hk] using h
    | ctrlC => exact h
    | tabKey => exact h
    | shiftTab => exact h
    | enter => exact h
    | esc => exact h
    | backspace => exact h
    | left => exact h
    | right => exact h
    | space => exact h
    | otherKey => exact h
  | mouse m =>
    cases hb : m.button with
    | left =>
      simp only [listUpdate, hb]
      split_ifs with h1 h2
      · exact selInv_setSelected l (m.y - l.offsetY)
      · exact h
      · exact h
    | wheelDown => simpa [listUpdate, hb] using selInv_moveDown l h
    | wheelUp => simpa [listUpdate, hb] using selInv_moveUp l h
    | otherButton => simpa [listUpdate, hb] using h
  | windowSize w hgt => exact h
  | actionExecuted action item => exact h
  | clearFeedback => exact h
  | createFormSubmitted r => exact h
  | createFormCancelled => exact h
  | confirmDialogResult r => exact h

/-- Claim C10: the list selection always stays in `[0, len-1]` (0 when the
list is empty): a fresh list starts there; replacing the backing items
keeps it there, clamping an overflowing selection to the new last index
and an emptied list to 0; set-selection re-establishes it
unconditionally; and every movement operation and every `Update` message
(keys, vim runes, clicks, wheel) preserves it. -/
theorem list_selection_invariant :
    (∀ items, selectionInv (newList items)) ∧
    (∀ l items, selectionInv l → selectionInv (listSetItems l items)) ∧
    (∀ (l : ListState) (items : List ListItem), items ≠ [] →
      l.selected ≥ (items.length : Int) →
      (listSetItems l items).selected = (items.length : Int) - 1) ∧
    (∀ l : ListState, (listSetItems l []).selected = 0) ∧
    (∀ l i, selectionInv (listSetSelected l i)) ∧
    (∀ l, selectionInv l →
      selectionInv (listMoveUp l) ∧ selectionInv (listMoveDown l) ∧
      selectionInv (listPageUp l) ∧ selectionInv (listPageDown l)) ∧
    (∀ l msg, selectionInv l → selectionInv (listUpdate l msg)) := by
  refine ⟨selInv_newList, selInv_setItems, ?_, ?_, selInv_setSelected,
          fun l h => ⟨selInv_moveUp l h, selInv_moveDown l h,
                      selInv_pageUp l h, selInv_pageDown l h⟩,
          selInv_listUpdate⟩
  · intro l items hne hover
    have hlen : items.length ≠ 0 := by simpa [List.length_eq_zero] using hne
    simp only [listSetItems]
    split_ifs <;> (try dsimp only) <;> omega
  · intro l
    simp [listSetItems]

instance (l : ListState) : Decidable (selectionInv l) := by
  unfold selectionInv
  infer_instance

/-- A list whose selection (2) overflows a one-item replacement. -/
def sampleOverflowList : ListState :=
  { items := [{}, {}, {}], selected := 2 }

/-- Witness for C10: the three-item list with selection 2 satisfies the
invariant, and replacing its items with a single item keeps the invariant
(the selection is clamped). -/
theorem list_selection_invariant_witness :
    selectionInv sampleOverflowList ∧
    selectionInv (listSetItems sampleOverflowList [{}]) := by
  refine ⟨by decide, ?_⟩
  exact list_selection_invariant.2.1 sampleOverflowList [{}] (by decide)

/-- The app state with its feedback banner replaced (and nothing else
changed); helper for stating the engine theorems. -/
def withFeedback (a : AppState) (t : FeedbackType) (m : Str) : AppState :=
  { a with feedback := feedbackShow a.feedback t m }

/-- Claim C3: every failed mutation — a remove, prune, or add call that
returns an error — only shows error feedback: the resulting state equals
the prior state with the feedback banner replaced by an error message, so
the worktree collection, the derived list items, the selection, the
details pane and every other component are exactly what they were, and no
refresh happens. -/
theorem failed_mutation_keeps_snapshot :
    (∀ (env : GitEnv) (a : AppState) (it : Option ListItem) (force : Bool) (e : Str),
      env.removeResult (optItemId it) force = some e →
      handleConfirmDialogResult env a
          { confirmed := true, force := force, data := .item it } =
        (withFeedback a .error ("Failed to remove worktree: ".data ++ e), .tick)) ∧
    (∀ (env : GitEnv) (a : AppState) (force : Bool) (e : Str),
      env.pruneResult = .error e →
      handleConfirmDialogResult env a
          { confirmed := true, force := force, data := .str "prune".data } =
        (withFeedback a .error ("Failed to prune worktrees: ".data ++ e), .tick)) ∧
    (∀ (env : GitEnv) (a : AppState) (r : CreateFormResult) (e : Str),
      env.addResult { path := r.path, branch := r.branch,
                      createBranch := r.createBranch } = some e →
      handleCreateFormSubmitted env a r =
        (withFeedback a .error ("Failed to create worktree: ".data ++ e), .tick)) := by
  refine ⟨?_, ?_, ?_⟩
  · intro env a it force e h
    simp [handleConfirmDialogResult, withFeedback, h]
  · intro env a force e h
    simp [handleConfirmDialogResult, withFeedback, h]
  · intro env a r e h
    simp [handleCreateFormSubmitted, withFeedback, h]

/-- Claim C4: every successful mutation refreshes the snapshot and shows
success feedback: a confirmed removal and a confirmed prune reload the
worktree list via `loadWorktrees` and set success feedback; a successful
listing replaces the whole collection, clears the error and rebuilds the
items; a successful creation-form submission records the created path as
the hand-off target and quits, signalling the host to hand control to the
new path after the session ends. -/
theorem successful_mutation_refreshes :
    (∀ (env : GitEnv) (a : AppState) (it : Option ListItem) (force : Bool),
      env.removeResult (optItemId it) force = none →
      handleConfirmDialogResult env a
          { confirmed := true, force := force, data := .item it } =
        (withFeedback (loadWorktrees env a) .success
          ("Removed worktree: ".data ++ optItemTitle it), .tick)) ∧
    (∀ (env : GitEnv) (a : AppState) (force : Bool) (out : Str),
      env.pruneResult = .ok out →
      handleConfirmDialogResult env a
          { confirmed := true, force := force, data := .str "prune".data } =
        (withFeedback (loadWorktrees env a) .success
          (if out ≠ [] then "Pruned: ".data ++ out
           else "Pruned stale worktrees".data), .tick)) ∧
    (∀ (env : GitEnv) (a : AppState) (wts : List Worktree),
      env.listResult = .ok wts →
      (loadWorktrees env a).worktrees = wts ∧
      (loadWorktrees env a).gitError = none ∧
      (loadWorktrees env a).list.items = wts.map (worktreeToListItem env.statusOf)) ∧
    (∀ (env : GitEnv) (a : AppState) (r : CreateFormResult),
      env.addResult { path := r.path, branch := r.branch,
                      createBranch := r.createBranch } = none →
      handleCreateFormSubmitted env a r =
        ({ a with targetPath := r.path, quitting := true }, .quit)) := by
  refine ⟨?_, ?_, ?_, ?_⟩
  · intro env a it force h
    simp [handleConfirmDialogResult, withFeedback, h]
  · intro env a force out h
    simp [handleConfirmDialogResult, withFeedback, h]
  · intro env a wts h
    have hitems : ∀ (l : ListState) (items : List ListItem),
        (listSetItems l items).items = items := by
      intro l items
      simp only [listSetItems]
      split_ifs <;> rfl
    simp only [loadWorktrees, h]
    split_ifs <;> simp [hitems]
  · intro env a r h
    simp [handleCreateFormSubmitted, h]

/-- A concrete worktree list item. -/
def sampleItem : ListItem := { id := "/w/a".data, title := "a".data }

/-- A concrete app state (all fields at their constructor defaults). -/
def sampleApp : AppState := {}

/-- An oracle in which every external call fails with reason `boom`. -/
def envAllFail : GitEnv :=
  { listResult := .error (.failed "boom".data),
    statusOf := fun _ => .error (.failed "boom".data),
    removeResult := fun _ _ => some "boom".data,
    pruneResult := .error "boom".data,
    addResult := fun _ => some "boom".data,
    openResult := fun _ => .error "boom".data }

/-- An oracle in which every external call succeeds; the list call yields
one worktree. -/
def envAllOk : GitEnv :=
  { listResult := .ok [{ path := "/w/a".data, branch := "main".data }],
    statusOf := fun _ => .ok {},
    removeResult := fun _ _ => none,
    pruneResult := .ok [],
    addResult := fun _ => none,
    openResult := fun _ => .ok {} }

/-- Witness for C3 under the all-failing oracle: a confirmed removal, a
confirmed prune and a form submission each leave the state untouched
except for the error feedback banner. -/
theorem failed_mutation_keeps_snapshot_witness :
    (handleConfirmDialogResult envAllFail sampleApp
        { confirmed := true, force := false, data := .item (some sampleItem) } =
      (withFeedback sampleApp .error
        ("Failed to remove worktree: ".data ++ "boom".data), .tick)) ∧
    (handleConfirmDialogResult envAllFail sampleApp
        { confirmed := true, force := false, data := .str "prune".data } =
      (withFeedback sampleApp .error
        ("Failed to prune worktrees: ".data ++ "boom".data), .tick)) ∧
    (handleCreateFormSubmitted envAllFail sampleApp
        { branch := "b".data, path := "/w/b".data, createBranch := true } =
      (withFeedback sampleApp .error
        ("Failed to create worktree: ".data ++ "boom".data), .tick)) := by
  refine ⟨?_, ?_, ?_⟩
  · exact failed_mutation_keeps_snapshot.1 envAllFail sampleApp
      (some sampleItem) false ("boom".data) rfl
  · exact failed_mutation_keeps_snapshot.2.1 envAllFail sampleApp
      false ("boom".data) rfl
  · exact failed_mutation_keeps_snapshot.2.2 envAllFail sampleApp
      { branch := "b".data, path := "/w/b".data, createBranch := true }
      ("boom".data) rfl

/-- Witness for C4 under the all-succeeding oracle: a confirmed removal
refreshes and reports success, a successful listing replaces the
collection, and a successful creation records the hand-off target and
quits. -/
theorem successful_mutation_refreshes_witness :
    (handleConfirmDialogResult envAllOk sampleApp
        { confirmed := true, force := false, data := .item (some sampleItem) } =
      (withFeedback (loadWorktrees envAllOk sampleApp) .success
        ("Removed worktree: ".data ++ "a".data), .tick)) ∧
    (loadWorktrees envAllOk sampleApp).worktrees =
      [{ path := "/w/a".data, branch := "main".data }] ∧
    (handleCreateFormSubmitted envAllOk sampleApp
        { branch := "b".data, path := "/w/b".data, createBranch := true } =
      ({ sampleApp with targetPath := "/w/b".data, quitting := true }, .quit)) := by
  refine ⟨?_, ?_, ?_⟩
  · exact successful_mutation_refreshes.1 envAllOk sampleApp
      (some sampleItem) false rfl
  · exact (successful_mutation_refreshes.2.2.1 envAllOk sampleApp
      [{ path := "/w/a".data, branch := "main".data }] rfl).1
  · exact successful_mutation_refreshes.2.2.2 envAllOk sampleApp
      { branch := "b".data, path := "/w/b".data, createBranch := true } rfl
